import Mathlib

/-!
Shallow embedding of the EvaSoil dashboard analytics code
(src/app/page.tsx and src/app/api/sensor-data/route.ts).

Numeric sensor values are modelled as rationals and timestamps as
integers.  JavaScript list idioms translate directly: `slice(-k)` becomes
`drop (length - k)` with truncated subtraction, `slice(-20, -10)` becomes
`(take (length - 10)).drop (length - 20)`, and `reduce((a, b) => a + b, 0)`
becomes `foldl (+) 0`.  The `sum / length || 0` pattern in the trend
computation yields 0 exactly when the window is empty (0 / 0 is NaN,
coerced to 0); rational division by zero is already 0, so plain division
models it faithfully.
-/

namespace EvaSoil

/-- One row of the sensor_readings table, with the fields the dashboard reads. -/
structure SensorReading where
  id : Nat
  device_id : String
  moisture : ℚ
  temperature : ℚ
  light_lux : ℚ
  created_at : Int
  deriving Repr, DecidableEq

/-- The stats record passed to setStats in page.tsx. -/
structure Stats where
  moistureAvg : ℚ
  moistureTrend : ℚ
  tempAvg : ℚ
  tempTrend : ℚ
  lightAvg : ℚ
  lightTrend : ℚ
  totalReadings : Nat
  moistureMin : ℚ
  moistureMax : ℚ
  tempMin : ℚ
  tempMax : ℚ
  lightMin : ℚ
  lightMax : ℚ
  deriving Repr, DecidableEq

/-- values.reduce((a, b) => a + b, 0). -/
def sumList (l : List ℚ) : ℚ := l.foldl (· + ·) 0

/-- values.slice(-10): the last min(10, n) elements. -/
def slice10 (l : List ℚ) : List ℚ := l.drop (l.length - 10)

/-- values.slice(-20, -10): up to 10 elements immediately before the last 10. -/
def slice20to10 (l : List ℚ) : List ℚ :=
  (l.take (l.length - 10)).drop (l.length - 20)

/-- window.reduce((a, b) => a + b, 0) / window.length || 0 : the mean of a
window, 0 when the window is empty (NaN coerced by the JS or). -/
def jsMean (l : List ℚ) : ℚ := sumList l / (l.length : ℚ)

/-- The per-metric trend of calculateStats: mean of slice(-10) minus mean
of slice(-20, -10), each coerced to 0 when its window is empty. -/
def trendOf (values : List ℚ) : ℚ :=
  jsMean (slice10 values) - jsMean (slice20to10 values)

/-- Math.min over a spread list; only applied to nonempty lists in
calculateStats (the length guard runs first), so the empty default is inert. -/
def listMin : List ℚ → ℚ
  | [] => 0
  | x :: xs => xs.foldl min x

/-- Math.max over a spread list; same usage note as listMin. -/
def listMax : List ℚ → ℚ
  | [] => 0
  | x :: xs => xs.foldl max x

/-- calculateStats from page.tsx.  The early return on fewer than 2
readings is modelled as none; otherwise the record handed to setStats. -/
def calculateStats (readings : List SensorReading) : Option Stats :=
  if readings.length < 2 then none
  else
    let moistureValues := readings.map (·.moisture)
    let tempValues := readings.map (·.temperature)
    let lightValues := readings.map (·.light_lux)
    some
      { moistureAvg := sumList moistureValues / (moistureValues.length : ℚ),
        moistureTrend := trendOf moistureValues,
        tempAvg := sumList tempValues / (tempValues.length : ℚ),
        tempTrend := trendOf tempValues,
        lightAvg := sumList lightValues / (lightValues.length : ℚ),
        lightTrend := trendOf lightValues,
        totalReadings := readings.length,
        moistureMin := listMin moistureValues,
        moistureMax := listMax moistureValues,
        tempMin := listMin tempValues,
        tempMax := listMax tempValues,
        lightMin := listMin lightValues,
        lightMax := listMax lightValues }

/-- The dashboard state variables the claims are about: the data buffer,
the latest reading and the stats record (useState initial values: empty
list, null, all-zero stats). -/
structure DashState where
  data : List SensorReading
  latest : Option SensorReading
  stats : Stats
  deriving Repr, DecidableEq

/-- The useState initial stats value: every field 0. -/
def statsInit : Stats :=
  { moistureAvg := 0, moistureTrend := 0, tempAvg := 0, tempTrend := 0,
    lightAvg := 0, lightTrend := 0, totalReadings := 0,
    moistureMin := 0, moistureMax := 0, tempMin := 0, tempMax := 0,
    lightMin := 0, lightMax := 0 }

/-- The initial dashboard state. -/
def initState : DashState := { data := [], latest := none, stats := statsInit }

/-- list.slice(-cap): the last cap elements. -/
def takeLast (cap : Nat) (l : List SensorReading) : List SensorReading :=
  l.drop (l.length - cap)

/-- The realtime INSERT handler buffer update:
setData(prev => [...prev, newReading].slice(-1000)). -/
def mergePush (prev : List SensorReading) (r : SensorReading) : List SensorReading :=
  takeLast 1000 (prev ++ [r])

/-- The whole realtime INSERT handler: the buffer update above followed by
setLatest(newReading), with no token check, no dedup and no stats
recomputation. -/
def applyPush (s : DashState) (r : SensorReading) : DashState :=
  { data := mergePush s.data r, latest := some r, stats := s.stats }

/-- The five window tokens of the range selector. -/
inductive TimeRange
  | h1
  | h6
  | h24
  | d7
  | d30
  deriving Repr, DecidableEq

/-- The success branch of fetchData once the awaited query for window
token tok returns readings: setData(readings) unconditionally, then
setLatest(last) and calculateStats(readings) only when the result is
nonempty; calculateStats itself leaves stats untouched below 2 readings.
The token is not consulted when the response arrives — no generation
counter exists — which the unused argument records. -/
def applyResponse (s : DashState) (_tok : TimeRange) (readings : List SensorReading) : DashState :=
  { data := readings,
    latest := match readings.getLast? with
      | some r => some r
      | none => s.latest,
    stats := (calculateStats readings).getD s.stats }

/-- JSX condition guarding the Low Moisture Alert card: latest.moisture < 30,
with the threshold hardcoded. -/
def showLowMoistureAlert (r : SensorReading) : Bool := decide (r.moisture < 30)

/-- JSX condition guarding the Low Light Alert card: latest.light_lux < 100,
with the threshold hardcoded. -/
def showLowLightAlert (r : SensorReading) : Bool := decide (r.light_lux < 100)

/-- Threshold configuration owned by the settings subsystem, per the spec. -/
structure ThresholdConfig where
  moistureLow : ℚ
  tempLow : ℚ
  tempHigh : ℚ
  lightLow : ℚ
  deriving Repr, DecidableEq

/-- Alert flags, per the spec data model. -/
structure AlertState where
  lowMoisture : Bool
  tempOutOfRange : Bool
  lowLight : Bool
  deriving Repr, DecidableEq

/-- Modelled from the spec: the AlertEvaluator rules of section 4.4
(lowMoisture iff moisture below moistureLow, tempOutOfRange iff
temperature outside the band, lowLight iff light below lightLow).  No such
evaluator exists in the code — the two JSX conditions above are the whole
alert logic — so this definition follows the spec wording and is compared
against them. -/
def alertStateSpec (latest : SensorReading) (th : ThresholdConfig) : AlertState :=
  { lowMoisture := decide (latest.moisture < th.moistureLow),
    tempOutOfRange := decide (latest.temperature < th.tempLow) || decide (latest.temperature > th.tempHigh),
    lowLight := decide (latest.light_lux < th.lightLow) }

/-- Ingest POST body as route.ts reads it.  Each numeric field holds the
parseFloat result: none models a field that is missing or whose parseFloat
is NaN (non-numeric).  submittedAt stands for any client-supplied time
field, which the handler never reads. -/
structure IngestBody where
  device_id : Option String
  soil : Option ℚ
  temperature : Option ℚ
  light_lux : Option ℚ
  submittedAt : Option Int
  deriving Repr, DecidableEq

/-- The row route.ts inserts into sensor_readings. -/
structure InsertData where
  device_id : String
  moisture : ℚ
  temperature : ℚ
  light_lux : ℚ
  timestamp : Int
  deriving Repr, DecidableEq

/-- The POST handler insertData object: parseFloat(field) || 0 for each
numeric value (none, i.e. NaN, becomes 0) and timestamp := Date.now(),
the receipt time now. -/
def insertDataOf (body : IngestBody) (now : Int) : InsertData :=
  { device_id := body.device_id.getD "ESP32_PlantGuard_01",
    moisture := body.soil.getD 0,
    temperature := body.temperature.getD 0,
    light_lux := body.light_lux.getD 0,
    timestamp := now }

/-- The buffer ordering invariant: created_at non-decreasing along the list. -/
def sortedByCreated : List SensorReading → Bool
  | [] => true
  | [_] => true
  | a :: b :: t => decide (a.created_at ≤ b.created_at) && sortedByCreated (b :: t)

/-- Modelled from the spec: the last min(10, n) values of the trend
definition in section 4.3. -/
def specTailWindow (l : List ℚ) : List ℚ := l.drop (l.length - min 10 l.length)

/-- Modelled from the spec: the min(10, n - 10) values immediately before
the tail window. -/
def specPrevWindow (l : List ℚ) : List ℚ :=
  (l.take (l.length - min 10 l.length)).drop
    ((l.take (l.length - min 10 l.length)).length - min 10 (l.length - 10))

/-- Arithmetic mean as the spec writes it, with an explicit empty case. -/
def specMean (l : List ℚ) : ℚ := if l.isEmpty then 0 else sumList l / (l.length : ℚ)

/-- A reading with the given id, moisture and timestamp; the other metrics 0. -/
def mkReading (i : Nat) (m : ℚ) (t : Int) : SensorReading :=
  { id := i, device_id := "dev", moisture := m, temperature := 0,
    light_lux := 0, created_at := t }

/-- Scenario A of the spec: two readings with moisture 50 then 30. -/
def scenarioA : List SensorReading := [mkReading 1 50 0, mkReading 2 30 1]

/-- Scenario B of the spec: 20 readings with moisture values 1..20 in order. -/
def scenarioB : List SensorReading :=
  (List.range 20).map (fun i => mkReading (i + 1) ((i : ℚ) + 1) (i : Int))

/-- A run of n readings with id and created_at 0..n-1 and all metrics 0. -/
def genReadings (n : Nat) : List SensorReading :=
  (List.range n).map (fun i => mkReading i 0 (i : Int))

/-! ### Supporting lemmas -/

/-- Length of the buffer after one realtime merge. -/
theorem mergePush_len (b : List SensorReading) (r : SensorReading) :
    (mergePush b r).length = min (b.length + 1) 1000 := by
  simp [mergePush, takeLast]
  omega

/-- The Bool sortedness check agrees with the chain of timestamp comparisons. -/
theorem sortedByCreated_chain (l : List SensorReading) :
    sortedByCreated l = true ↔
      List.Chain' (fun a b => a.created_at ≤ b.created_at) l := by
  induction l with
  | nil => simp [sortedByCreated]
  | cons a t ih =>
    cases t with
    | nil => simp [sortedByCreated]
    | cons b t2 =>
      simp only [sortedByCreated, Bool.and_eq_true, decide_eq_true_eq,
        List.chain'_cons]
      rw [ih]

/-- Dropping a prefix preserves sortedness. -/
theorem sortedByCreated_drop (l : List SensorReading) (n : Nat)
    (h : sortedByCreated l = true) : sortedByCreated (l.drop n) = true := by
  rw [sortedByCreated_chain] at h ⊢
  exact h.drop n

/-- Appending a reading at least as recent as everything in a sorted buffer
keeps it sorted. -/
theorem sortedByCreated_append_last (b : List SensorReading) (r : SensorReading)
    (hb : sortedByCreated b = true)
    (hr : ∀ x ∈ b, x.created_at ≤ r.created_at) :
    sortedByCreated (b ++ [r]) = true := by
  rw [sortedByCreated_chain] at hb ⊢
  rw [List.chain'_append]
  refine ⟨hb, List.chain'_singleton r, ?_⟩
  intro x hx y hy
  simp only [List.head?_cons, Option.mem_def, Option.some.injEq] at hy
  subst hy
  exact hr x (List.mem_of_mem_getLast? hx)

/-- Dropping a prefix preserves freedom from duplicate ids. -/
theorem nodupIds_drop (l : List SensorReading) (n : Nat)
    (h : (l.map (·.id)).Nodup) : ((l.drop n).map (·.id)).Nodup :=
  List.Nodup.sublist (List.Sublist.map _ (List.drop_sublist n l)) h

/-- The spec tail window is the code's slice(-10). -/
theorem specTailWindow_eq (l : List ℚ) : specTailWindow l = slice10 l := by
  unfold specTailWindow slice10
  congr 1
  omega

/-- The spec preceding window is the code's slice(-20, -10). -/
theorem specPrevWindow_eq (l : List ℚ) : specPrevWindow l = slice20to10 l := by
  unfold specPrevWindow slice20to10
  have h1 : l.length - min 10 l.length = l.length - 10 := by omega
  rw [h1]
  congr 1
  rw [List.length_take]
  omega

/-- The spec mean coincides with the JS mean-or-zero. -/
theorem specMean_eq_jsMean (l : List ℚ) : specMean l = jsMean l := by
  cases l with
  | nil => simp [specMean, jsMean, sumList]
  | cons x xs => simp [specMean, jsMean]

/-- The code trend equals spec-tail mean minus spec-preceding mean. -/
theorem trendOf_spec (l : List ℚ) :
    trendOf l = specMean (specTailWindow l) - specMean (specPrevWindow l) := by
  rw [trendOf, specTailWindow_eq, specPrevWindow_eq, specMean_eq_jsMean,
    specMean_eq_jsMean]

/-- With at most 10 values the preceding window is empty, so the trend is
the mean of the whole list. -/
theorem trendOf_small (l : List ℚ) (h : l.length ≤ 10) : trendOf l = jsMean l := by
  unfold trendOf slice10 slice20to10
  have h1 : l.length - 10 = 0 := by omega
  rw [h1]
  simp [jsMean, sumList]

/-- calculateStats reports insufficient data exactly below 2 readings. -/
theorem calculateStats_none_iff (readings : List SensorReading) :
    calculateStats readings = none ↔ readings.length < 2 := by
  by_cases h : readings.length < 2 <;> simp [calculateStats, h]

/-! ### Claim theorems -/

/-- Claim C1 is false as stated: on the two-point Scenario A series the
moisture trend is 40 — the mean of the tail window minus nothing — not 0
as the claim requires for an empty preceding window; the Scenario B value
10 does hold. -/
theorem trend_empty_prev_counterexample :
    (calculateStats scenarioA).map Stats.moistureTrend = some 40 ∧
    (calculateStats scenarioA).map Stats.moistureTrend ≠ some 0 ∧
    (calculateStats scenarioB).map Stats.moistureTrend = some 10 := by
  refine ⟨?_, ?_, ?_⟩
  · simp [calculateStats, scenarioA, mkReading, trendOf, jsMean, slice10,
      slice20to10, sumList]
    norm_num
  · simp [calculateStats, scenarioA, mkReading, trendOf, jsMean, slice10,
      slice20to10, sumList]
    norm_num
  · simp [calculateStats, scenarioB, mkReading, trendOf, jsMean, slice10,
      slice20to10, sumList, List.range_succ]
    norm_num

/-- Claim C1 (amended): for every series with at least 2 readings and each
metric, the trend equals mean(last min(10, n) values) minus mean(the
preceding min(10, n - 10) values), where the mean of an empty window is 0;
hence when n ≤ 10 the trend equals the mean of all n values, not 0. -/
theorem calculateStats_trend_correct (readings : List SensorReading)
    (h : 2 ≤ readings.length) :
    ∃ st, calculateStats readings = some st ∧
      st.moistureTrend =
        specMean (specTailWindow (readings.map (·.moisture))) -
          specMean (specPrevWindow (readings.map (·.moisture))) ∧
      st.tempTrend =
        specMean (specTailWindow (readings.map (·.temperature))) -
          specMean (specPrevWindow (readings.map (·.temperature))) ∧
      st.lightTrend =
        specMean (specTailWindow (readings.map (·.light_lux))) -
          specMean (specPrevWindow (readings.map (·.light_lux))) ∧
      (readings.length ≤ 10 →
        st.moistureTrend = specMean (readings.map (·.moisture))) := by
  have hn : ¬ readings.length < 2 := by omega
  unfold calculateStats
  rw [if_neg hn]
  refine ⟨_, rfl, trendOf_spec _, trendOf_spec _, trendOf_spec _, ?_⟩
  intro h10
  have hlen : (readings.map (·.moisture)).length ≤ 10 := by
    simpa using h10
  rw [specMean_eq_jsMean]
  exact trendOf_small _ hlen

/-- Witness for the amended C1 theorem at the Scenario B series. -/
theorem calculateStats_trend_correct_witness :
    2 ≤ scenarioB.length ∧
    (∃ st, calculateStats scenarioB = some st ∧
      st.moistureTrend =
        specMean (specTailWindow (scenarioB.map (·.moisture))) -
          specMean (specPrevWindow (scenarioB.map (·.moisture)))) := by
  refine ⟨by decide, ?_⟩
  obtain ⟨st, h1, h2, -⟩ := calculateStats_trend_correct scenarioB (by decide)
  exact ⟨st, h1, h2⟩

/-- Claim C2 is false: starting from a one-element buffer that satisfies
the invariant, the live merge re-appends a duplicate id instead of
dropping it, and appends an out-of-order reading at the tail instead of
inserting it in sorted position. -/
theorem merge_invariant_counterexample :
    sortedByCreated [mkReading 1 50 10] = true ∧
    (([mkReading 1 50 10].map (·.id)).Nodup) ∧
    mergePush [mkReading 1 50 10] (mkReading 1 50 10)
      = [mkReading 1 50 10, mkReading 1 50 10] ∧
    ¬ ((mergePush [mkReading 1 50 10] (mkReading 1 50 10)).map (·.id)).Nodup ∧
    mergePush [mkReading 1 50 10] (mkReading 2 50 5)
      = [mkReading 1 50 10, mkReading 2 50 5] ∧
    sortedByCreated (mergePush [mkReading 1 50 10] (mkReading 2 50 5)) = false := by
  refine ⟨?_, ?_, ?_, ?_, ?_, ?_⟩ <;> decide

/-- Claim C2 (amended): the live merge appends at the tail and truncates to
the last 1000 entries, so the invariant is preserved only when the pushed
reading is at least as recent as everything buffered and its id is fresh. -/
theorem mergePush_invariant_inorder (b : List SensorReading) (r : SensorReading)
    (hb : sortedByCreated b = true)
    (hr : ∀ x ∈ b, x.created_at ≤ r.created_at)
    (hid : r.id ∉ b.map (·.id))
    (hnd : (b.map (·.id)).Nodup) :
    sortedByCreated (mergePush b r) = true ∧
    ((mergePush b r).map (·.id)).Nodup := by
  simp only [mergePush, takeLast]
  constructor
  · exact sortedByCreated_drop _ _ (sortedByCreated_append_last b r hb hr)
  · apply nodupIds_drop
    rw [List.map_append, List.nodup_append]
    refine ⟨hnd, List.nodup_singleton _, ?_⟩
    intro a ha hmem
    simp only [List.map_cons, List.map_nil, List.mem_singleton] at hmem
    subst hmem
    exact hid ha

/-- Witness for the amended C2 theorem: an in-order fresh push on a sorted
one-element buffer. -/
theorem mergePush_invariant_inorder_witness :
    sortedByCreated (mergePush [mkReading 1 50 0] (mkReading 2 40 5)) = true ∧
    ((mergePush [mkReading 1 50 0] (mkReading 2 40 5)).map (·.id)).Nodup :=
  mergePush_invariant_inorder _ _ (by decide) (by decide) (by decide) (by decide)

/-- Claim C3 is false: there is no window-generation counter — after the
24h response has been applied, the stale 6h response arriving later still
overwrites the buffer with its own data. -/
theorem stale_response_counterexample :
    (applyResponse (applyResponse initState TimeRange.h24
        [mkReading 1 10 0, mkReading 2 20 1]) TimeRange.h6
        [mkReading 3 30 2]).data = [mkReading 3 30 2] ∧
    [mkReading 3 30 2] ≠ [mkReading 1 10 0, mkReading 2 20 1] :=
  ⟨rfl, by decide⟩

/-- Claim C3 (amended): a completed range query is applied unconditionally
on arrival, whatever window token issued it — the last response to arrive
wins, stale or not. -/
theorem applyResponse_last_wins (s : DashState) (tok1 tok2 : TimeRange)
    (l1 l2 : List SensorReading) :
    (applyResponse (applyResponse s tok1 l1) tok2 l2).data = l2 := rfl

/-- Claim C4: calculateStats is total — it yields the explicit
insufficient-data result (none, the early return) exactly on series
shorter than 2 readings, and a statistics value otherwise, never an
error. -/
theorem calculateStats_total (readings : List SensorReading) :
    (readings.length < 2 → calculateStats readings = none) ∧
    (2 ≤ readings.length → (calculateStats readings).isSome = true) := by
  constructor
  · intro h
    simp [calculateStats, h]
  · intro h
    have hn : ¬ readings.length < 2 := by omega
    simp [calculateStats, hn]

/-- Witness for C4 at the empty series and the Scenario A series. -/
theorem calculateStats_total_witness :
    calculateStats [] = none ∧ (calculateStats scenarioA).isSome = true :=
  ⟨(calculateStats_total []).1 (by decide),
   (calculateStats_total scenarioA).2 (by decide)⟩

/-- Claim C5 is false in its seeding half: fetchData seeds the buffer with
the raw query result without truncation, so a 1001-row result leaves 1001
entries in the buffer. -/
theorem seed_no_truncation_counterexample :
    1000 < (applyResponse initState TimeRange.h6 (genReadings 1001)).data.length := by
  simp [applyResponse, genReadings]

/-- Claim C5 (amended): only the live merge enforces the capacity — each
merge truncates to min(previous length + 1, 1000), so one merge on a
buffer at or above capacity yields exactly 1000 entries, and the result is
a suffix of the appended sequence (hence the most recent entries when the
buffer is sorted); seeding itself performs no truncation. -/
theorem mergePush_capacity (b : List SensorReading) (r : SensorReading) :
    (mergePush b r).length = min (b.length + 1) 1000 ∧
    mergePush b r <:+ b ++ [r] :=
  ⟨mergePush_len b r, List.drop_suffix _ _⟩

/-- Claim C6 is false: merging the same reading twice appends two copies,
not one. -/
theorem merge_idempotence_counterexample :
    mergePush (mergePush [] (mkReading 1 50 0)) (mkReading 1 50 0)
      ≠ mergePush [] (mkReading 1 50 0) := by
  decide

/-- Claim C6 (amended): below capacity, merging the same reading twice
yields a buffer strictly longer than merging it once — the merge has no
duplicate check and is not idempotent. -/
theorem mergePush_not_idempotent (b : List SensorReading) (r : SensorReading)
    (h : b.length ≤ 998) :
    (mergePush (mergePush b r) r).length = (mergePush b r).length + 1 ∧
    mergePush (mergePush b r) r ≠ mergePush b r := by
  have h1 := mergePush_len b r
  have h2 := mergePush_len (mergePush b r) r
  constructor
  · omega
  · intro heq
    have h3 := congrArg List.length heq
    omega

/-- Witness for the amended C6 theorem on the empty buffer. -/
theorem mergePush_not_idempotent_witness :
    (mergePush (mergePush [] (mkReading 1 50 0)) (mkReading 1 50 0)).length
      = (mergePush [] (mkReading 1 50 0)).length + 1 ∧
    mergePush (mergePush [] (mkReading 1 50 0)) (mkReading 1 50 0)
      ≠ mergePush [] (mkReading 1 50 0) :=
  mergePush_not_idempotent [] (mkReading 1 50 0) (by decide)

/-- Claim C7 is false: the thresholds are not injected — with an injected
moistureLow of 50 the spec evaluator flags moisture 40 as low, but the
code alert, whose threshold is hardcoded to 30, does not fire. -/
theorem alert_threshold_counterexample :
    (alertStateSpec (mkReading 1 40 0) ⟨50, 15, 28, 100⟩).lowMoisture = true ∧
    showLowMoistureAlert (mkReading 1 40 0) = false := by
  refine ⟨?_, ?_⟩ <;> decide

/-- Claim C7 (amended): the code's alert conditions use fixed thresholds,
agreeing with the spec evaluator rules exactly when the injected config
carries moistureLow 30 and lightLow 100, the hardcoded values; no
temperature alert exists in the code.  In particular moisture 25 fires the
alert and moisture 35 does not. -/
theorem alerts_fixed_thresholds (r : SensorReading) (th : ThresholdConfig)
    (hm : th.moistureLow = 30) (hl : th.lightLow = 100) :
    showLowMoistureAlert r = (alertStateSpec r th).lowMoisture ∧
    showLowLightAlert r = (alertStateSpec r th).lowLight := by
  simp [showLowMoistureAlert, showLowLightAlert, alertStateSpec, hm, hl]

/-- Witness for the amended C7 theorem, covering the Scenario C pair. -/
theorem alerts_fixed_thresholds_witness :
    showLowMoistureAlert (mkReading 1 25 0)
      = (alertStateSpec (mkReading 1 25 0) ⟨30, 15, 28, 100⟩).lowMoisture ∧
    showLowMoistureAlert (mkReading 1 25 0) = true ∧
    showLowMoistureAlert (mkReading 2 35 0) = false :=
  ⟨(alerts_fixed_thresholds (mkReading 1 25 0) ⟨30, 15, 28, 100⟩ rfl rfl).1,
   by decide, by decide⟩

/-- Claim C8 is false: when the new window's query returns an empty result,
the previous window's latest reading and statistics are carried over — only
the buffer itself is rebuilt from the new result. -/
theorem window_switch_carryover_counterexample :
    (applyResponse (applyResponse initState TimeRange.h6 scenarioA)
        TimeRange.h24 []).data = [] ∧
    (applyResponse (applyResponse initState TimeRange.h6 scenarioA)
        TimeRange.h24 []).latest = some (mkReading 2 30 1) ∧
    (applyResponse (applyResponse initState TimeRange.h6 scenarioA)
        TimeRange.h24 []).stats
      = (applyResponse initState TimeRange.h6 scenarioA).stats ∧
    (applyResponse initState TimeRange.h6 scenarioA).stats.moistureAvg = 40 := by
  refine ⟨rfl, rfl, rfl, ?_⟩
  simp [applyResponse, calculateStats, scenarioA, mkReading, sumList]
  norm_num

/-- Claim C8 (amended): after a window change completes, the buffer is
rebuilt solely from the new query result; latest is rebuilt from it
exactly when it is nonempty and the statistics exactly when it has at
least 2 readings — otherwise the previous values carry over. -/
theorem applyResponse_rebuild (s : DashState) (tok : TimeRange)
    (readings : List SensorReading) :
    (applyResponse s tok readings).data = readings ∧
    (readings = [] → (applyResponse s tok readings).latest = s.latest) ∧
    (readings ≠ [] → (applyResponse s tok readings).latest = readings.getLast?) ∧
    (readings.length < 2 → (applyResponse s tok readings).stats = s.stats) ∧
    (2 ≤ readings.length →
      some ((applyResponse s tok readings).stats) = calculateStats readings) := by
  refine ⟨rfl, ?_, ?_, ?_, ?_⟩
  · intro h
    subst h
    rfl
  · intro h
    cases hl : readings.getLast? with
    | none => exact absurd (List.getLast?_eq_none_iff.mp hl) h
    | some x => simp [applyResponse, hl]
  · intro h
    have hnone : calculateStats readings = none :=
      (calculateStats_none_iff readings).mpr h
    simp [applyResponse, hnone]
  · intro h
    cases hc : calculateStats readings with
    | none =>
      exact absurd ((calculateStats_none_iff readings).mp hc) (by omega)
    | some st => simp [applyResponse, hc]

/-- Witness for the amended C8 theorem at Scenario A and the empty result. -/
theorem applyResponse_rebuild_witness :
    (applyResponse initState TimeRange.h24 scenarioA).data = scenarioA ∧
    (applyResponse initState TimeRange.h24 scenarioA).latest = scenarioA.getLast? ∧
    some ((applyResponse initState TimeRange.h24 scenarioA).stats)
      = calculateStats scenarioA ∧
    (applyResponse initState TimeRange.h24 []).latest = initState.latest :=
  ⟨(applyResponse_rebuild initState TimeRange.h24 scenarioA).1,
   (applyResponse_rebuild initState TimeRange.h24 scenarioA).2.2.1 (by decide),
   (applyResponse_rebuild initState TimeRange.h24 scenarioA).2.2.2.2 (by decide),
   (applyResponse_rebuild initState TimeRange.h24 []).2.1 rfl⟩

/-- Claim C9: the persisted row takes each numeric field from the
submission with a missing or non-numeric value coerced to 0, and its time
is stamped at receipt by the server — any client-supplied time field is
ignored. -/
theorem insertDataOf_correct (body : IngestBody) (now : Int) :
    (body.soil = none → (insertDataOf body now).moisture = 0) ∧
    (∀ q, body.soil = some q → (insertDataOf body now).moisture = q) ∧
    (body.temperature = none → (insertDataOf body now).temperature = 0) ∧
    (∀ q, body.temperature = some q → (insertDataOf body now).temperature = q) ∧
    (body.light_lux = none → (insertDataOf body now).light_lux = 0) ∧
    (∀ q, body.light_lux = some q → (insertDataOf body now).light_lux = q) ∧
    (insertDataOf body now).timestamp = now ∧
    (∀ t, insertDataOf { body with submittedAt := some t } now
        = insertDataOf body now) := by
  refine ⟨?_, ?_, ?_, ?_, ?_, ?_, rfl, ?_⟩
  · intro h
    simp [insertDataOf, h]
  · intro q h
    simp [insertDataOf, h]
  · intro h
    simp [insertDataOf, h]
  · intro q h
    simp [insertDataOf, h]
  · intro h
    simp [insertDataOf, h]
  · intro q h
    simp [insertDataOf, h]
  · intro t
    rfl

/-- Witness for C9: a body with missing moisture, temperature 21 and a
client time field, received at time 1234. -/
theorem insertDataOf_correct_witness :
    (insertDataOf ⟨none, none, some 21, some 500, some 999⟩ 1234).moisture = 0 ∧
    (insertDataOf ⟨none, none, some 21, some 500, some 999⟩ 1234).temperature = 21 ∧
    (insertDataOf ⟨none, none, some 21, some 500, some 999⟩ 1234).timestamp = 1234 :=
  ⟨(insertDataOf_correct ⟨none, none, some 21, some 500, some 999⟩ 1234).1 rfl,
   (insertDataOf_correct ⟨none, none, some 21, some 500, some 999⟩ 1234).2.2.2.1 21 rfl,
   (insertDataOf_correct ⟨none, none, some 21, some 500, some 999⟩ 1234).2.2.2.2.2.2.1⟩

/-- Claim C10: after every live push the latest reading is set
unconditionally to the pushed reading, whatever its timestamp relative to
the previous latest or the rest of the buffer. -/
theorem applyPush_latest_unconditional (s : DashState) (r : SensorReading) :
    (applyPush s r).latest = some r := rfl

end EvaSoil
